import Mathlib

/-!
Shallow embedding of the browser-side authentication session component of the
biosero-api-docs site, together with proofs of its specified properties.

The embedded code:
* `src/auth/AuthProvider.jsx` — the Session Manager: `init` (the mount
  effect), `login`, `logout`, `getAccessToken`, and the context value.
* `src/pages/auth-redirect.js`, `src/pages/login.js`, `src/pages/logout.js` —
  the Surface Pages' readiness-gated effects.
* `src/components/AuthNavbarItems.jsx` — the navbar logout handler.

The external `@azure/msal-browser` client is modelled as an oracle
(`MsalEnv`) that fixes the outcome of each of its calls for a scenario:
each call either resolves with a value or rejects with an `MsalError`.
Browser session storage is an association-list map; full-page navigations
and redirect calls are recorded in a `World` of observable effects.
-/

namespace BioseroAuth

/-- An identity-provider account, opaque to this component (owned by the
msal-browser library); only its identity matters here. -/
structure Account where
  id : String
deriving DecidableEq, Repr

/-- An exception raised by the identity-provider client. `name` models
the JS `e?.name` field; `isInstanceOfInteractionRequired` models the
`e instanceof InteractionRequiredAuthError` check. -/
structure MsalError where
  name : String
  isInstanceOfInteractionRequired : Bool
deriving DecidableEq, Repr

/-- Oracle fixing the outcome of each msal-browser call in a scenario.
`Except.error` means the corresponding promise rejects (or the call throws). -/
structure MsalEnv where
  /-- Outcome of importing the library and constructing
  `new PublicClientApplication(msalConfig)` (a malformed configuration or an
  unreachable metadata endpoint surfaces here or in `handleRedirectOutcome`). -/
  constructOutcome : Except MsalError Unit
  /-- Outcome of `pca.handleRedirectPromise()`; on success, the `result?.account`
  field of the redirect response (`none` when no redirect was pending or the
  response carries no account). -/
  handleRedirectOutcome : Except MsalError (Option Account)
  /-- Value of `pca.getActiveAccount()` during `init`'s cached-account lookup. -/
  cachedActiveAccount : Option Account
  /-- Value of `pca.getAllAccounts()` during `init`'s cached-account lookup. -/
  cachedAllAccounts : List Account
  /-- Outcome of `pca.acquireTokenSilent(...)`; on success, the
  `result?.accessToken` field (`none` models an absent token field). -/
  silentOutcome : Except MsalError (Option String)
  /-- Outcome of `pca.loginRedirect(...)`. -/
  loginRedirectOutcome : Except MsalError Unit
  /-- Outcome of `pca.logoutRedirect(...)`. -/
  logoutRedirectOutcome : Except MsalError Unit
  /-- Outcome of `pca.acquireTokenRedirect(...)`. -/
  acquireRedirectOutcome : Except MsalError Unit
deriving Repr

/-- The Session Manager's state: the React state of `AuthProvider` plus the
part of the identity client's state it interacts with. -/
structure ManagerState where
  /-- React state `ready` (useState, initially false). -/
  ready : Bool
  /-- React state `account` (useState, initially null). -/
  account : Option Account
  /-- Whether `pcaRef.current` has been set (the client finished construction). -/
  pcaInited : Bool
  /-- The identity client's active account (`pca.setActiveAccount` /
  `pca.getActiveAccount`). -/
  pcaActive : Option Account
deriving DecidableEq, Repr

/-- The state a page load starts from: `useState(null)` for the account,
`useState(false)` for readiness, `useRef(null)` for the client handle. -/
def initialManagerState : ManagerState :=
  { ready := false, account := none, pcaInited := false, pcaActive := none }

/-- A call to `pca.logoutRedirect` with the arguments the code passes:
`account: active || undefined` and the configured post-logout destination. -/
structure LogoutCall where
  account : Option Account
  postLogoutRedirectUri : String
deriving DecidableEq, Repr

/-- Observable effects of a scenario: browser session storage (a key-value
map as an association list), full-page navigations via
`window.location.replace`, counts of redirect-initiating provider calls, the
arguments of `logoutRedirect` calls, and the console error log. -/
structure World where
  storage : List (String × String)
  navigations : List String
  loginRedirects : Nat
  logoutCalls : List LogoutCall
  acquireRedirects : Nat
  errorLog : List String
deriving DecidableEq, Repr

/-- A world with empty storage and no recorded effects. -/
def emptyWorld : World :=
  { storage := [], navigations := [], loginRedirects := 0, logoutCalls := [],
    acquireRedirects := 0, errorLog := [] }

/-- Web Storage `getItem`: the value bound to `k`, or `none`. -/
def getItem (s : List (String × String)) (k : String) : Option String :=
  (s.find? (fun p => p.1 == k)).map (fun p => p.2)

/-- Web Storage `setItem`: bind `k` to `v`, overwriting any previous binding
(the storage is a map; the association list keeps one binding per key). -/
def setItem (s : List (String × String)) (k v : String) : List (String × String) :=
  (k, v) :: s.filter (fun p => !(p.1 == k))

/-- Web Storage `removeItem`: drop any binding of `k`. -/
def removeItem (s : List (String × String)) (k : String) : List (String × String) :=
  s.filter (fun p => !(p.1 == k))

/-- The site root used as the default return destination, `/biosero-api-docs/`. -/
def siteRoot : String := "/biosero-api-docs/"

/-- The configured post-logout destination from `msalConfig.js`
(`getPostLogoutRedirectUri`); its exact value depends on `window.location`,
so scenarios carry it as a parameter. -/
structure MsalConfigAuth where
  postLogoutRedirectUri : String
deriving DecidableEq, Repr

/-- The `init` effect of `AuthProvider.jsx` (the mount `useEffect`, lines
25-55), for a page where `canUseDOM` holds and the effect is not cancelled:
construct the client, set `pcaRef`, await `handleRedirectPromise`, establish
the account from the redirect result or from the cached-account lookup
(`getActiveAccount() || getAllAccounts()[0] || null`); any exception is caught
and logged, and `finally` sets `ready` to true. -/
def init (env : MsalEnv) (w : World) : ManagerState × World :=
  match env.constructOutcome with
  | .error e =>
      ({ ready := true, account := none, pcaInited := false, pcaActive := none },
       { w with errorLog := w.errorLog ++ ["MSAL initialization error: " ++ e.name] })
  | .ok _ =>
    match env.handleRedirectOutcome with
    | .error e =>
        ({ ready := true, account := none, pcaInited := true, pcaActive := none },
         { w with errorLog := w.errorLog ++ ["MSAL initialization error: " ++ e.name] })
    | .ok (some acc) =>
        ({ ready := true, account := some acc, pcaInited := true, pcaActive := some acc }, w)
    | .ok none =>
      match env.cachedActiveAccount with
      | some a =>
          ({ ready := true, account := some a, pcaInited := true, pcaActive := some a }, w)
      | none =>
        match env.cachedAllAccounts.head? with
        | some a =>
            ({ ready := true, account := some a, pcaInited := true, pcaActive := some a }, w)
        | none =>
            ({ ready := true, account := none, pcaInited := true, pcaActive := none }, w)

/-- The `login` operation of `AuthProvider.jsx` (lines 61-71): return early
when the client is not constructed; otherwise store the current page path
(or the site root when it is the empty string, via JS `||`) under the
session-storage key `returnTo`, then await `pca.loginRedirect(loginRequest)`.
The redirect call is not inside any try/catch, so its rejection becomes the
rejection of `login()` itself. -/
def login (st : ManagerState) (currentPath : String) (env : MsalEnv) (w : World) :
    ManagerState × Except MsalError Unit × World :=
  if !st.pcaInited then (st, .ok (), w)
  else
    let stored := if currentPath == "" then siteRoot else currentPath
    let w1 := { w with storage := setItem w.storage "returnTo" stored }
    let w2 := { w1 with loginRedirects := w1.loginRedirects + 1 }
    match env.loginRedirectOutcome with
    | .ok _ => (st, .ok (), w2)
    | .error e => (st, .error e, w2)

/-- The `logout` operation of `AuthProvider.jsx` (lines 73-81): return early
when the client is not constructed; otherwise call `pca.logoutRedirect` with
`account: active || undefined` and the configured post-logout destination.
The call is not inside any try/catch, so a thrown error propagates. -/
def logout (st : ManagerState) (cfg : MsalConfigAuth) (env : MsalEnv) (w : World) :
    ManagerState × Except MsalError Unit × World :=
  if !st.pcaInited then (st, .ok (), w)
  else
    let w1 := { w with logoutCalls := w.logoutCalls ++
      [{ account := st.pcaActive, postLogoutRedirectUri := cfg.postLogoutRedirectUri }] }
    match env.logoutRedirectOutcome with
    | .ok _ => (st, .ok (), w1)
    | .error e => (st, .error e, w1)

/-- The error classification of `getAccessToken`'s catch branch:
`e?.name === "InteractionRequiredAuthError" || e instanceof InteractionRequiredAuthError`. -/
def needsInteraction (e : MsalError) : Bool :=
  e.name == "InteractionRequiredAuthError" || e.isInstanceOfInteractionRequired

/-- The `getAccessToken` operation of `AuthProvider.jsx` (lines 83-107):
return null when the client is not constructed; with no active account,
await `pca.loginRedirect(loginRequest)` (outside any try/catch) and return
null; with an active account, try silent acquisition and return its access
token; on an interaction-required failure, await `pca.acquireTokenRedirect`
(whose own rejection propagates) and return null; on any other failure, log
the error and return null. -/
def getAccessToken (st : ManagerState) (env : MsalEnv) (w : World) :
    ManagerState × Except MsalError (Option String) × World :=
  if !st.pcaInited then (st, .ok none, w)
  else
    match st.pcaActive with
    | none =>
      let w1 := { w with loginRedirects := w.loginRedirects + 1 }
      match env.loginRedirectOutcome with
      | .ok _ => (st, .ok none, w1)
      | .error e => (st, .error e, w1)
    | some _active =>
      match env.silentOutcome with
      | .ok tok => (st, .ok tok, w)
      | .error e =>
        if needsInteraction e then
          let w1 := { w with acquireRedirects := w.acquireRedirects + 1 }
          match env.acquireRedirectOutcome with
          | .ok _ => (st, .ok none, w1)
          | .error e2 => (st, .error e2, w1)
        else
          (st, .ok none,
           { w with errorLog := w.errorLog ++ ["Token acquisition error: " ++ e.name] })

/-- The read-only view `AuthProvider` exposes through its context value
(`useMemo` over `isAuthenticated`, `account`, `ready`). -/
structure AuthContextView where
  isAuthenticated : Bool
  account : Option Account
  ready : Bool
deriving DecidableEq, Repr

/-- The accessor: the context value computed from the manager state
(`isAuthenticated = !!account`). -/
def contextView (st : ManagerState) : AuthContextView :=
  { isAuthenticated := st.account.isSome, account := st.account, ready := st.ready }

/-- The returnTo consumption shared by the Auth-Return page and the
authenticated branch of the Login page: read the `returnTo` key (JS `||`
defaults on an absent or empty value), remove it, and navigate to it via
`window.location.replace`. -/
def consumeReturnTo (w : World) : World :=
  let returnTo :=
    match getItem w.storage "returnTo" with
    | some v => if v == "" then siteRoot else v
    | none => siteRoot
  { w with storage := removeItem w.storage "returnTo"
         , navigations := w.navigations ++ [returnTo] }

/-- The `AuthRedirectClient` effect of `src/pages/auth-redirect.js`
(lines 13-22): do nothing until `ready`; once ready, consume the pending
return path and navigate to it. -/
def authRedirectClientEffect (st : ManagerState) (w : World) : World :=
  if !st.ready then w else consumeReturnTo w

/-- The `LoginClient` effect of `src/pages/login.js` (lines 13-23): do
nothing until `ready`; once ready, call `login()` when unauthenticated
(the promise is not awaited, so a rejection of `login()` surfaces as an
unhandled rejection, returned here as `some e`), else consume the pending
return path and navigate. -/
def loginClientEffect (st : ManagerState) (currentPath : String) (env : MsalEnv)
    (w : World) : Option MsalError × World :=
  if !st.ready then (none, w)
  else if !st.account.isSome then
    match login st currentPath env w with
    | (_, .ok _, w1) => (none, w1)
    | (_, .error e, w1) => (some e, w1)
  else (none, consumeReturnTo w)

/-- The `LogoutClient` effect body of `src/pages/logout.js` (lines 13-17):
`if (ready) logout()`. -/
def logoutClientEffect (st : ManagerState) (cfg : MsalConfigAuth) (env : MsalEnv)
    (w : World) : Except MsalError Unit × World :=
  if st.ready then
    match logout st cfg env w with
    | (_, r, w1) => (r, w1)
  else (.ok (), w)

/-- What the Protected-Content Gate renders. -/
inductive GateOutput (α : Type)
  | children (c : α)
  | redirectToLogin
deriving DecidableEq, Repr

/-- The `Protected` component of `src/components/Protected.jsx` (staged among
the repository's sources): it reads `isAuthenticated` from the auth context
and the login URL, but its whole enforcement block is commented out
("Temporarily disable authentication - uncomment lines below to re-enable"),
so it renders its children unconditionally for every authentication state.
The component takes no enforcement flag; the auth state it subscribes to is
unused by its render logic. -/
def Protected {α : Type} (_isAuthenticated : Bool) (c : α) : GateOutput α :=
  .children c

/-- The commented-out enforcement block of `Protected.jsx`, embedded
separately to state what uncommenting it would restore (no runtime flag in
the source selects it): `if (!isAuthenticated) { window.location.href =
loginUrl; return null; }` and otherwise render the children. -/
def ProtectedReenabled {α : Type} (isAuthenticated : Bool) (c : α) : GateOutput α :=
  if !isAuthenticated then .redirectToLogin else .children c

/-- A render of `AuthProvider` as consumers observe it: the fields of the
`useMemo`-keyed context value that determine both the identity of the memoed
`value` (hence of the `logout` closure handed to consumers) and the `ready`
dependency of the pages' effects. `AuthProvider` re-renders only when
`setAccount` or `setReady` fires, so a render is determined by these fields. -/
structure CtxSnapshot where
  ready : Bool
  account : Option Account
deriving DecidableEq, Repr

/-- React effect scheduling for `LogoutClient`: its effect has dependency
array `[logout, ready]`; `logout`'s identity is that of the memoed context
value, keyed on `(isAuthenticated, account, ready)`, so the dependency tuple
is determined by the `CtxSnapshot`. The effect body re-runs at a render
exactly when the deps differ from those at its previous run (or at the first
render), and invokes `logout()` when `ready` holds. This counts the
`logout()` invocations over a sequence of renders, given the deps of the
last run so far. -/
def logoutInvocations : List CtxSnapshot → Option CtxSnapshot → Nat
  | [], _ => 0
  | s :: rest, lastRun =>
      if lastRun = some s then logoutInvocations rest lastRun
      else (if s.ready then 1 else 0) + logoutInvocations rest (some s)

/-- Number of bindings of a key in the storage map. -/
def countKey (s : List (String × String)) (k : String) : Nat :=
  (s.filter (fun p => p.1 == k)).length

theorem getItem_setItem_same (s : List (String × String)) (k v : String) :
    getItem (setItem s k v) k = some v := by
  unfold getItem setItem
  rw [List.find?_cons_of_pos _ (by simp)]
  rfl

theorem getItem_removeItem (s : List (String × String)) (k : String) :
    getItem (removeItem s k) k = none := by
  unfold getItem removeItem
  induction s with
  | nil => rfl
  | cons p t ih =>
    by_cases h : (p.1 == k) = true
    · simp [List.filter_cons, h]
    · simp [List.filter_cons, h, List.find?_cons_of_neg, ih]

theorem countKey_setItem (s : List (String × String)) (k v : String) :
    countKey (setItem s k v) k = 1 := by
  unfold countKey setItem
  rw [List.filter_cons_of_pos (by simp)]
  have hnil : (s.filter (fun p => !(p.1 == k))).filter (fun p => p.1 == k) = [] := by
    induction s with
    | nil => rfl
    | cons p t ih =>
      by_cases h : (p.1 == k) = true
      · simp [List.filter_cons, h]
      · simp [List.filter_cons, h]
  simp [hnil]

theorem consumeReturnTo_stored (w : World) (v : String) (hv : (v == "") = false)
    (h : getItem w.storage "returnTo" = some v) :
    (consumeReturnTo w).navigations = w.navigations ++ [v] := by
  simp [consumeReturnTo, h, hv]

theorem consumeReturnTo_absent (w : World) (h : getItem w.storage "returnTo" = none) :
    (consumeReturnTo w).navigations = w.navigations ++ [siteRoot] := by
  simp [consumeReturnTo, h]

theorem consumeReturnTo_clears (w : World) :
    getItem (consumeReturnTo w).storage "returnTo" = none := by
  simp [consumeReturnTo, getItem_removeItem]

theorem logoutInvocations_replicate_self (n : Nat) (s : CtxSnapshot) :
    logoutInvocations (List.replicate n s) (some s) = 0 := by
  induction n with
  | zero => rfl
  | succ n ih => simpa [List.replicate_succ, logoutInvocations] using ih

theorem logoutInvocations_replicate_le_one (n : Nat) (s : CtxSnapshot)
    (last : Option CtxSnapshot) :
    logoutInvocations (List.replicate n s) last ≤ 1 := by
  cases n with
  | zero => simp [logoutInvocations]
  | succ n =>
    rw [List.replicate_succ]
    by_cases h : last = some s
    · subst h
      simp [logoutInvocations, logoutInvocations_replicate_self]
    · simp only [logoutInvocations, if_neg h, logoutInvocations_replicate_self]
      by_cases hr : s.ready = true <;> simp [hr]

theorem logoutInvocations_le_one (t1 : List CtxSnapshot) (n : Nat) (acc : Option Account)
    (last : Option CtxSnapshot) :
    (∀ x ∈ t1, x.ready = false) →
    logoutInvocations (t1 ++ List.replicate n ⟨true, acc⟩) last ≤ 1 := by
  induction t1 generalizing last with
  | nil => exact fun _ => logoutInvocations_replicate_le_one n _ last
  | cons x t ih =>
    intro h
    have hx : x.ready = false := h x (List.mem_cons_self x t)
    have ht : ∀ y ∈ t, y.ready = false := fun y hy => h y (List.mem_cons_of_mem x hy)
    rw [List.cons_append]
    simp only [logoutInvocations]
    by_cases hl : last = some x
    · rw [if_pos hl]
      exact ih last ht
    · rw [if_neg hl, hx]
      simpa using ih (some x) ht

/-- A manager state after an initialization that found no account. -/
def readyNoAccount : ManagerState :=
  { ready := true, account := none, pcaInited := true, pcaActive := none }

/-- A concrete account for scenarios. -/
def acct : Account := { id := "user-1" }

/-- A manager state after an initialization that established `acct`. -/
def readyWithAcct : ManagerState :=
  { ready := true, account := some acct, pcaInited := true, pcaActive := some acct }

/-- An oracle where every provider call succeeds, no redirect response or
cached account is found, and silent acquisition yields an access token. -/
def envOk : MsalEnv :=
  { constructOutcome := .ok (), handleRedirectOutcome := .ok none,
    cachedActiveAccount := none, cachedAllAccounts := [],
    silentOutcome := .ok (some "tok-123"), loginRedirectOutcome := .ok (),
    logoutRedirectOutcome := .ok (), acquireRedirectOutcome := .ok () }

/-- A provider error that is not interaction-required. -/
def errNetwork : MsalError :=
  { name := "ClientConfigurationError", isInstanceOfInteractionRequired := false }

/-- An interaction-required provider error. -/
def errIR : MsalError :=
  { name := "InteractionRequiredAuthError", isInstanceOfInteractionRequired := true }

/-- A non-interaction provider error during silent acquisition. -/
def errServer : MsalError :=
  { name := "ServerError", isInstanceOfInteractionRequired := false }

/-- An oracle whose client construction fails. -/
def envConstructFails : MsalEnv := { envOk with constructOutcome := .error errNetwork }

/-- An oracle whose redirect-response processing fails. -/
def envRedirectFails : MsalEnv := { envOk with handleRedirectOutcome := .error errNetwork }

/-- An oracle whose silent acquisition fails with an interaction-required error. -/
def envSilentIR : MsalEnv := { envOk with silentOutcome := .error errIR }

/-- An oracle whose silent acquisition fails with a non-interaction error. -/
def envSilentErr : MsalEnv := { envOk with silentOutcome := .error errServer }

/-- A concrete post-logout configuration. -/
def cfgProd : MsalConfigAuth :=
  { postLogoutRedirectUri := "https://pwerner-biosero.github.io/biosero-api-docs/" }

/-- C10: the readiness flag is monotone over a page lifetime: it starts false,
initialization sets it true in every outcome (success or failure), and
`login`, `logout` and `getAccessToken` leave the manager state — hence the
flag — unchanged (they invoke no state setter); consumers see it read-only
through the context accessor. -/
theorem ready_flag_monotone :
    initialManagerState.ready = false
    ∧ (∀ env w, ((init env w).1).ready = true)
    ∧ (∀ st p env w, (login st p env w).1 = st)
    ∧ (∀ st cfg env w, (logout st cfg env w).1 = st)
    ∧ (∀ st env w, (getAccessToken st env w).1 = st)
    ∧ (∀ st, (contextView st).ready = st.ready) := by
  refine ⟨rfl, ?_, ?_, ?_, ?_, fun st => rfl⟩
  · intro env w
    rcases env with ⟨co, ro, ca, caa, so, lro, loro, aro⟩
    rcases co with e | u
    · rfl
    · rcases ro with e | r
      · rfl
      · rcases r with _ | a
        · rcases ca with _ | a
          · rcases caa with _ | ⟨a, t⟩ <;> rfl
          · rfl
        · rfl
  · intro st p env w
    rcases env with ⟨co, ro, ca, caa, so, lro, loro, aro⟩
    cases hb : st.pcaInited
    · simp [login, hb]
    · rcases lro with e | u <;> simp [login, hb]
  · intro st cfg env w
    rcases env with ⟨co, ro, ca, caa, so, lro, loro, aro⟩
    cases hb : st.pcaInited
    · simp [logout, hb]
    · rcases loro with e | u <;> simp [logout, hb]
  · intro st env w
    rcases env with ⟨co, ro, ca, caa, so, lro, loro, aro⟩
    cases hb : st.pcaInited
    · simp [getAccessToken, hb]
    · rcases ha : st.pcaActive with _ | a
      · rcases lro with e | u <;> simp [getAccessToken, hb, ha]
      · rcases so with e | tok
        · cases hni : needsInteraction e
          · simp [getAccessToken, hb, ha, hni]
          · rcases aro with e2 | u <;> simp [getAccessToken, hb, ha, hni]
        · simp [getAccessToken, hb, ha]

/-- C1: for a login cycle starting on page path `p` (pathname plus search plus
hash, hence nonempty), `login()` stores `p` under the session-storage key
`returnTo` before redirecting, and the Auth-Return page, once ready, reads
that same key and navigates exactly to `p`. -/
theorem login_roundTrip_restores_origin (st : ManagerState) (p : String)
    (env : MsalEnv) (w : World) (hinit : st.pcaInited = true) (hp : p ≠ "") :
    getItem ((login st p env w).2.2).storage "returnTo" = some p
    ∧ (authRedirectClientEffect { st with ready := true }
        ((login st p env w).2.2)).navigations
      = ((login st p env w).2.2).navigations ++ [p] := by
  have hpb : (p == "") = false := by simpa using hp
  have hstore : ((login st p env w).2.2).storage = setItem w.storage "returnTo" p := by
    rcases env with ⟨co, ro, ca, caa, so, lro, loro, aro⟩
    rcases lro with e | u <;> simp [login, hinit, hpb]
  have hget : getItem ((login st p env w).2.2).storage "returnTo" = some p := by
    rw [hstore]; exact getItem_setItem_same _ _ _
  refine ⟨hget, ?_⟩
  have heff : authRedirectClientEffect { st with ready := true } ((login st p env w).2.2)
      = consumeReturnTo ((login st p env w).2.2) := by
    simp [authRedirectClientEffect]
  rw [heff]
  exact consumeReturnTo_stored _ _ hpb hget

/-- Witness for C1 at a concrete login cycle from `/docs/intro`. -/
theorem login_roundTrip_restores_origin_witness :
    getItem ((login readyNoAccount "/docs/intro" envOk emptyWorld).2.2).storage "returnTo"
      = some "/docs/intro"
    ∧ (authRedirectClientEffect { readyNoAccount with ready := true }
        ((login readyNoAccount "/docs/intro" envOk emptyWorld).2.2)).navigations
      = ((login readyNoAccount "/docs/intro" envOk emptyWorld).2.2).navigations
          ++ ["/docs/intro"] :=
  login_roundTrip_restores_origin readyNoAccount "/docs/intro" envOk emptyWorld rfl
    (by decide)

/-- C2 counterexample: at a ready, unauthenticated state, `getAccessToken()`
triggers one login redirect and returns null, but leaves session storage
empty: the Pending Return Path is NOT persisted, unlike `login()`, which at
the same state stores the current path under `returnTo`. The claim's "same
effects as login() including persisting the Pending Return Path" is false. -/
theorem getAccessToken_noAccount_cex :
    (getAccessToken readyNoAccount envOk emptyWorld).2.1 = .ok none
    ∧ ((getAccessToken readyNoAccount envOk emptyWorld).2.2).loginRedirects = 1
    ∧ getItem ((getAccessToken readyNoAccount envOk emptyWorld).2.2).storage "returnTo"
        = none
    ∧ getItem ((login readyNoAccount "/docs/intro" envOk emptyWorld).2.2).storage "returnTo"
        = some "/docs/intro" :=
  ⟨rfl, rfl, rfl, rfl⟩

/-- C2 (amended): if `getAccessToken()` is called when no account is active,
it calls the provider's `loginRedirect` directly — triggering exactly one
login redirect — and returns no token; unlike `login()`, it does NOT persist
the Pending Return Path: session storage is left unchanged. -/
theorem getAccessToken_noAccount_redirects (st : ManagerState) (env : MsalEnv)
    (w : World) (hinit : st.pcaInited = true) (hacc : st.pcaActive = none)
    (hok : env.loginRedirectOutcome = .ok ()) :
    (getAccessToken st env w).2.1 = .ok none
    ∧ ((getAccessToken st env w).2.2).loginRedirects = w.loginRedirects + 1
    ∧ ((getAccessToken st env w).2.2).storage = w.storage := by
  simp [getAccessToken, hinit, hacc, hok]

/-- Witness for the amended C2 at a concrete ready, unauthenticated state. -/
theorem getAccessToken_noAccount_redirects_witness :
    (getAccessToken readyNoAccount envOk emptyWorld).2.1 = .ok none
    ∧ ((getAccessToken readyNoAccount envOk emptyWorld).2.2).loginRedirects
        = emptyWorld.loginRedirects + 1
    ∧ ((getAccessToken readyNoAccount envOk emptyWorld).2.2).storage
        = emptyWorld.storage :=
  getAccessToken_noAccount_redirects readyNoAccount envOk emptyWorld rfl rfl rfl

/-- C4: the Pending Return Path holds at most one value at a time (every
write overwrites: the map keeps exactly one binding, equal to the last value
written), and is consumed at most once: after the Auth-Return page's ready
effect the key is absent; the effect navigates to the stored value, and a
load with no stored value navigates to the site root `/biosero-api-docs/`. -/
theorem returnTo_single_value_consumed_once :
    (∀ s v, countKey (setItem s "returnTo" v) "returnTo" = 1
            ∧ getItem (setItem s "returnTo" v) "returnTo" = some v)
    ∧ (∀ st w, st.ready = true →
        getItem (authRedirectClientEffect st w).storage "returnTo" = none)
    ∧ (∀ st w v, st.ready = true → getItem w.storage "returnTo" = some v → v ≠ "" →
        (authRedirectClientEffect st w).navigations = w.navigations ++ [v])
    ∧ (∀ st w, st.ready = true → getItem w.storage "returnTo" = none →
        (authRedirectClientEffect st w).navigations = w.navigations ++ [siteRoot]) := by
  refine ⟨fun s v => ⟨countKey_setItem s _ v, getItem_setItem_same s _ v⟩, ?_, ?_, ?_⟩
  · intro st w h
    simp only [authRedirectClientEffect, h, Bool.not_true, Bool.false_eq_true, if_false]
    exact consumeReturnTo_clears w
  · intro st w v h hv hne
    simp only [authRedirectClientEffect, h, Bool.not_true, Bool.false_eq_true, if_false]
    exact consumeReturnTo_stored w v (by simpa using hne) hv
  · intro st w h hv
    simp only [authRedirectClientEffect, h, Bool.not_true, Bool.false_eq_true, if_false]
    exact consumeReturnTo_absent w hv

/-- Witness for C4 on a concrete storage and return-page load. -/
theorem returnTo_single_value_consumed_once_witness :
    (countKey (setItem [("returnTo", "/old")] "returnTo" "/docs/intro") "returnTo" = 1
      ∧ getItem (setItem [("returnTo", "/old")] "returnTo" "/docs/intro") "returnTo"
          = some "/docs/intro")
    ∧ getItem (authRedirectClientEffect readyNoAccount
        { emptyWorld with storage := [("returnTo", "/docs/intro")] }).storage "returnTo"
        = none
    ∧ (authRedirectClientEffect readyNoAccount
        { emptyWorld with storage := [("returnTo", "/docs/intro")] }).navigations
        = ({ emptyWorld with storage := [("returnTo", "/docs/intro")] } : World).navigations
          ++ ["/docs/intro"]
    ∧ (authRedirectClientEffect readyNoAccount emptyWorld).navigations
        = emptyWorld.navigations ++ [siteRoot] :=
  ⟨returnTo_single_value_consumed_once.1 [("returnTo", "/old")] "/docs/intro",
   returnTo_single_value_consumed_once.2.1 readyNoAccount
     { emptyWorld with storage := [("returnTo", "/docs/intro")] } rfl,
   returnTo_single_value_consumed_once.2.2.1 readyNoAccount
     { emptyWorld with storage := [("returnTo", "/docs/intro")] } "/docs/intro" rfl rfl
     (by decide),
   returnTo_single_value_consumed_once.2.2.2 readyNoAccount emptyWorld rfl rfl⟩

/-- C5: with an active account, a silent-acquisition failure classified as
interaction-required (by error name or instance check) escalates to exactly
one interactive redirect acquisition and yields a null token; any other
failure is logged and yields a null token with the manager state — hence the
session — unchanged. Both failure modes are per-call, not fatal. -/
theorem silent_failure_classification :
    (∀ st env w a e, st.pcaInited = true → st.pcaActive = some a →
      env.silentOutcome = .error e → needsInteraction e = true →
      env.acquireRedirectOutcome = .ok () →
      (getAccessToken st env w).1 = st
      ∧ (getAccessToken st env w).2.1 = .ok none
      ∧ ((getAccessToken st env w).2.2).acquireRedirects = w.acquireRedirects + 1)
    ∧ (∀ st env w a e, st.pcaInited = true → st.pcaActive = some a →
      env.silentOutcome = .error e → needsInteraction e = false →
      (getAccessToken st env w).1 = st
      ∧ (getAccessToken st env w).2.1 = .ok none
      ∧ ((getAccessToken st env w).2.2).acquireRedirects = w.acquireRedirects
      ∧ ((getAccessToken st env w).2.2).errorLog
          = w.errorLog ++ ["Token acquisition error: " ++ e.name]) := by
  constructor
  · intro st env w a e h1 h2 h3 h4 h5
    refine ⟨?_, ?_, ?_⟩ <;> simp [getAccessToken, h1, h2, h3, h4, h5]
  · intro st env w a e h1 h2 h3 h4
    refine ⟨?_, ?_, ?_, ?_⟩ <;> simp [getAccessToken, h1, h2, h3, h4]

/-- Witness for C5: an interaction-required silent failure at `readyWithAcct`
escalates to a redirect; a server error is logged and non-fatal. -/
theorem silent_failure_classification_witness :
    ((getAccessToken readyWithAcct envSilentIR emptyWorld).1 = readyWithAcct
      ∧ (getAccessToken readyWithAcct envSilentIR emptyWorld).2.1 = .ok none
      ∧ ((getAccessToken readyWithAcct envSilentIR emptyWorld).2.2).acquireRedirects
          = emptyWorld.acquireRedirects + 1)
    ∧ ((getAccessToken readyWithAcct envSilentErr emptyWorld).1 = readyWithAcct
      ∧ (getAccessToken readyWithAcct envSilentErr emptyWorld).2.1 = .ok none
      ∧ ((getAccessToken readyWithAcct envSilentErr emptyWorld).2.2).acquireRedirects
          = emptyWorld.acquireRedirects
      ∧ ((getAccessToken readyWithAcct envSilentErr emptyWorld).2.2).errorLog
          = emptyWorld.errorLog ++ ["Token acquisition error: " ++ errServer.name]) :=
  ⟨silent_failure_classification.1 readyWithAcct envSilentIR emptyWorld acct errIR
     rfl rfl rfl rfl rfl,
   silent_failure_classification.2 readyWithAcct envSilentErr emptyWorld acct errServer
     rfl rfl rfl rfl⟩

/-- C6: every initialization failure — whether the client cannot be
constructed (malformed configuration, unreachable metadata endpoint) or the
redirect-response processing throws — is logged exactly once with no retry,
and the manager settles Ready/Unauthenticated: ready becomes true with no
account established. -/
theorem init_failure_settles_ready_unauthenticated (env : MsalEnv) (w : World)
    (e : MsalError)
    (h : env.constructOutcome = .error e
         ∨ (env.constructOutcome = .ok () ∧ env.handleRedirectOutcome = .error e)) :
    ((init env w).1).ready = true
    ∧ ((init env w).1).account = none
    ∧ ((init env w).2).errorLog
        = w.errorLog ++ ["MSAL initialization error: " ++ e.name] := by
  rcases h with h1 | ⟨h1, h2⟩
  · refine ⟨?_, ?_, ?_⟩ <;> simp [init, h1]
  · refine ⟨?_, ?_, ?_⟩ <;> simp [init, h1, h2]

/-- Witness for C6: both failure stages at concrete oracles. -/
theorem init_failure_settles_ready_unauthenticated_witness :
    (((init envConstructFails emptyWorld).1).ready = true
      ∧ ((init envConstructFails emptyWorld).1).account = none
      ∧ ((init envConstructFails emptyWorld).2).errorLog
          = emptyWorld.errorLog ++ ["MSAL initialization error: " ++ errNetwork.name])
    ∧ (((init envRedirectFails emptyWorld).1).ready = true
      ∧ ((init envRedirectFails emptyWorld).1).account = none
      ∧ ((init envRedirectFails emptyWorld).2).errorLog
          = emptyWorld.errorLog ++ ["MSAL initialization error: " ++ errNetwork.name]) :=
  ⟨init_failure_settles_ready_unauthenticated envConstructFails emptyWorld errNetwork
     (Or.inl rfl),
   init_failure_settles_ready_unauthenticated envRedirectFails emptyWorld errNetwork
     (Or.inr ⟨rfl, rfl⟩)⟩

/-- C8 counterexample: the gate renders an unauthenticated visitor's children
and never produces the redirect the claim promises for an active enforcement
flag — the component of `Protected.jsx` has no flag parameter at all, its
enforcement being a commented-out block. -/
theorem protected_no_active_enforcement_cex :
    Protected false (0 : Nat) = GateOutput.children 0
    ∧ ¬ Protected false (0 : Nat) = GateOutput.redirectToLogin :=
  ⟨rfl, by decide⟩

/-- C8 (amended): the Protected-Content Gate renders its children
unconditionally for every child content and every authentication state — its
enforcement exists only as a commented-out block with no runtime feature
flag to activate it; that block, were it uncommented, would redirect
unauthenticated visitors to the Login Page and render nothing while passing
children through for authenticated visitors. -/
theorem protected_renders_children_unconditionally :
    (∀ (α : Type) (isAuth : Bool) (c : α), Protected isAuth c = .children c)
    ∧ (∀ (α : Type) (c : α), ProtectedReenabled false c = .redirectToLogin)
    ∧ (∀ (α : Type) (c : α), ProtectedReenabled true c = .children c) :=
  ⟨fun _ _ _ => rfl, fun _ _ => rfl, fun _ _ => rfl⟩

/-- C9: each Surface Page's effect is inert while readiness is false — no
login, logout, navigation, or storage access happens — and over a page
lifetime whose renders show `ready` false for a while and then true with a
settled account (readiness resolving after a delay), the Logout page's
effect invokes `logout()` at most once. -/
theorem surfacePages_wait_for_ready :
    (∀ st p env w, st.ready = false → loginClientEffect st p env w = (none, w))
    ∧ (∀ st cfg env w, st.ready = false → logoutClientEffect st cfg env w = (.ok (), w))
    ∧ (∀ st w, st.ready = false → authRedirectClientEffect st w = w)
    ∧ (∀ (t1 : List CtxSnapshot) (n : Nat) (acc : Option Account),
        (∀ x ∈ t1, x.ready = false) →
        logoutInvocations (t1 ++ List.replicate n { ready := true, account := acc })
          none ≤ 1) := by
  refine ⟨?_, ?_, ?_, ?_⟩
  · intro st p env w h
    simp [loginClientEffect, h]
  · intro st cfg env w h
    simp [logoutClientEffect, h]
  · intro st w h
    simp [authRedirectClientEffect, h]
  · intro t1 n acc h
    exact logoutInvocations_le_one t1 n acc none h

/-- Witness for C9: the not-yet-ready initial state leaves every page effect
inert, and a delayed-readiness render trace invokes logout exactly once. -/
theorem surfacePages_wait_for_ready_witness :
    loginClientEffect initialManagerState "/docs/intro" envOk emptyWorld
        = (none, emptyWorld)
    ∧ logoutClientEffect initialManagerState cfgProd envOk emptyWorld
        = (.ok (), emptyWorld)
    ∧ authRedirectClientEffect initialManagerState emptyWorld = emptyWorld
    ∧ logoutInvocations
        ([{ ready := false, account := none }, { ready := false, account := some acct }]
          ++ List.replicate 3 { ready := true, account := some acct }) none ≤ 1 :=
  ⟨surfacePages_wait_for_ready.1 initialManagerState "/docs/intro" envOk emptyWorld rfl,
   surfacePages_wait_for_ready.2.1 initialManagerState cfgProd envOk emptyWorld rfl,
   surfacePages_wait_for_ready.2.2.1 initialManagerState emptyWorld rfl,
   surfacePages_wait_for_ready.2.2.2
     [{ ready := false, account := none }, { ready := false, account := some acct }]
     3 (some acct) (by decide)⟩

end BioseroAuth
